import Mathlib

/-!
Verification development for the n8n-workflows indexing and search core.

The definitions below are a shallow embedding of the Python source under
`src/src/core/` (models.py, database.py, exceptions.py): pure functions become
Lean functions, Python `int` becomes `Int`, byte contents become `List Nat`,
fallible operations return `Except`.  String processing is carried out over
`List Char` with explicit helper functions mirroring the semantics of the
Python string methods used by the source (`str.replace`, `str.split('_')`,
`str.isdigit`, `str.capitalize`, `str.lower`).
-/

/-- Trigger types, from `models.TriggerType`. -/
inductive TriggerType where
  | manual
  | webhook
  | scheduled
  | complexT
deriving DecidableEq, Repr

/-- Complexity levels, from `models.ComplexityLevel`. -/
inductive ComplexityLevel where
  | low
  | medium
  | high
deriving DecidableEq, Repr

namespace ComplexityLevel

/-- `ComplexityLevel.from_node_count` (models.py lines 34-42):
`node_count <= 5 → LOW`, `elif node_count <= 15 → MEDIUM`, `else HIGH`. -/
def fromNodeCount (node_count : Int) : ComplexityLevel :=
  if node_count ≤ 5 then .low
  else if node_count ≤ 15 then .medium
  else .high

end ComplexityLevel

/-- The `WorkflowMetadata` dataclass (models.py lines 48-82).  The optional
timestamp fields are modelled as optional strings; `tags` is optional because
its dataclass default is `None` (repaired by `__post_init__`). -/
structure WorkflowMetadata where
  filename : String
  name : String
  workflow_id : String
  active : Bool
  node_count : Int
  trigger_type : TriggerType
  complexity : ComplexityLevel
  integrations : List String
  description : String
  file_hash : String
  file_size : Int
  analyzed_at : Option String := none
  created_at : Option String := none
  updated_at : Option String := none
  tags : Option (List String) := none
  category : Option String := none
deriving DecidableEq, Repr

namespace WorkflowMetadata

/-- `WorkflowMetadata.__post_init__` (models.py lines 74-82): replace a `None`
tags value by the empty list, then recompute `complexity` from `node_count`
and overwrite the stored value when it disagrees. -/
def postInit (m : WorkflowMetadata) : WorkflowMetadata :=
  let m1 := if m.tags = none then { m with tags := some [] } else m
  let expected := ComplexityLevel.fromNodeCount m1.node_count
  if m1.complexity ≠ expected then { m1 with complexity := expected } else m1

end WorkflowMetadata

/-- A loosely-typed Python value as it reaches the `active` field validator:
an int, a bool (which Python treats as an int — `isinstance(True, int)` holds),
a string, or `None`. -/
inductive PyValue where
  | int (n : Int)
  | bool (b : Bool)
  | str (s : String)
  | none
deriving DecidableEq, Repr

/-- `WorkflowSummary.convert_active` (models.py lines 108-116).
`isinstance(v, int)` is true for both ints and bools, and `bool(n)` is
`n ≠ 0`; a string maps through `v.lower() in ('true', '1', 'yes', 'on')`;
anything else falls through to `bool(v)`, which is `False` for `None`. -/
def convertActive (v : PyValue) : Bool :=
  match v with
  | .int n => n != 0
  | .bool b => b
  | .str s => ["true", "1", "yes", "on"].contains s.toLower
  | .none => false

/-! ## String helpers mirroring the Python string methods used by
`database.format_workflow_name` (database.py lines 316-365). -/

/-- `name.replace('.json', '')` specialised to the fixed pattern: a leftmost,
non-overlapping scan removing every occurrence of `.json`, exactly as
Python's `str.replace` does with an empty replacement. -/
def stripJsonAll : List Char → List Char
  | [] => []
  | '.' :: 'j' :: 's' :: 'o' :: 'n' :: rest => stripJsonAll rest
  | c :: rest => c :: stripJsonAll rest

/-- `name.split('_')`: split on every underscore, keeping empty segments,
always returning at least one segment (Python semantics for a one-character
separator). `acc` holds the current segment reversed. -/
def splitUnderscore : List Char → List Char → List (List Char)
  | [], acc => [acc.reverse]
  | c :: rest, acc =>
      if c = '_' then acc.reverse :: splitUnderscore rest []
      else splitUnderscore rest (c :: acc)

/-- `part.isdigit()` (ASCII): nonempty and all characters are digits. -/
def pyIsDigit (s : List Char) : Bool :=
  !s.isEmpty && s.all Char.isDigit

/-- `part.capitalize()`: first character upper-cased, the rest lower-cased. -/
def pyCapitalize : List Char → List Char
  | [] => []
  | c :: cs => c.toUpper :: cs.map Char.toLower

/-- `part.lower()` (ASCII). -/
def pyLower (s : List Char) : List Char := s.map Char.toLower

/-- The `special_cases` dictionary of `format_workflow_name`
(database.py lines 340-358), as an association list in source order. -/
def specialCases : List (String × String) :=
  [("http", "HTTP"), ("api", "API"), ("webhook", "Webhook"),
   ("automation", "Automation"), ("scheduled", "Scheduled"),
   ("manual", "Manual"), ("ai", "AI"), ("ml", "ML"), ("csv", "CSV"),
   ("json", "JSON"), ("xml", "XML"), ("sql", "SQL"), ("ftp", "FTP"),
   ("smtp", "SMTP"), ("oauth", "OAuth"), ("jwt", "JWT"), ("crud", "CRUD")]

/-- Rendering of one segment (database.py lines 338-363): if the lower-cased
segment is a key of `special_cases`, use the dictionary value, otherwise
`part.capitalize()`. -/
def renderPart (part : List Char) : List Char :=
  match List.lookup (String.mk (pyLower part)) specialCases with
  | some v => v.data
  | none => pyCapitalize part

/-- The segment list `format_workflow_name` renders: remove `.json`, split on
underscores, and drop the first segment when there is more than one segment
and it is purely numeric (database.py lines 326-334). -/
def strippedParts (filename : String) : List (List Char) :=
  let name := stripJsonAll filename.data
  let parts := splitUnderscore name []
  if 1 < parts.length && pyIsDigit (parts.headD []) then parts.drop 1
  else parts

/-- `WorkflowDatabase.format_workflow_name` (database.py lines 316-365). -/
def formatWorkflowName (filename : String) : String :=
  String.mk (List.intercalate [' '] ((strippedParts filename).map renderPart))

/-- Variant used only to compare against the source behaviour: strip `.json`
only when it is the trailing file extension (what the spec's words "strip the
file extension" describe), leaving inner occurrences alone.  The rest of the
pipeline is identical. -/
def formatWorkflowNameTrailingOnly (filename : String) : String :=
  let name :=
    if filename.data.reverse.take 5 = ".json".data.reverse then
      filename.data.take (filename.data.length - 5)
    else filename.data
  let parts := splitUnderscore name []
  let parts :=
    if 1 < parts.length && pyIsDigit (parts.headD []) then parts.drop 1
    else parts
  String.mk (List.intercalate [' '] (parts.map renderPart))

/-- Per-segment rendering rule as the specification words it: a segment
matching an entry of the acronym/technology dictionary case-insensitively is
rendered in that entry's fixed capitalization regardless of position; any
other segment is title-cased (first letter upper, rest lower). -/
def specRenderSegment (part : List Char) : List Char :=
  let l := String.mk (pyLower part)
  if l = "http" then "HTTP".data
  else if l = "api" then "API".data
  else if l = "webhook" then "Webhook".data
  else if l = "automation" then "Automation".data
  else if l = "scheduled" then "Scheduled".data
  else if l = "manual" then "Manual".data
  else if l = "ai" then "AI".data
  else if l = "ml" then "ML".data
  else if l = "csv" then "CSV".data
  else if l = "json" then "JSON".data
  else if l = "xml" then "XML".data
  else if l = "sql" then "SQL".data
  else if l = "ftp" then "FTP".data
  else if l = "smtp" then "SMTP".data
  else if l = "oauth" then "OAuth".data
  else if l = "jwt" then "JWT".data
  else if l = "crud" then "CRUD".data
  else pyCapitalize part

/-! ## Fingerprint store: `WorkflowDatabase.get_file_hash`
(database.py lines 292-314). -/

/-- An I/O error raised by the operating system while reading a file
(`OSError`/`IOError`), carrying its message. -/
structure OsError where
  message : String
deriving DecidableEq, Repr

/-- The structured `FileSystemError` (exceptions.py lines 276-314): message,
optional file path and operation context, the fixed error code set by the
class, and the original OS error when one caused it. -/
structure FileSystemError where
  message : String
  file_path : Option String
  operation : Option String
  error_code : String
  original_error : Option OsError
deriving DecidableEq, Repr

/-- The file is read in 8192-byte chunks (`f.read(8192)` in a loop until an
empty read).  Splitting the byte content into successive chunks of 8192. -/
def chunksOf8192 : List Nat → List (List Nat)
  | [] => []
  | b :: rest => ((b :: rest).take 8192) :: chunksOf8192 ((b :: rest).drop 8192)
termination_by l => l.length
decreasing_by
  simp only [List.length_drop, List.length_cons]
  omega

/-- `get_file_hash` on an already-read byte content: every chunk is fed to
`hash_md5.update`, which appends it to the message the digest is computed
over, and `hexdigest` applies the digest function `md5` to the accumulated
message.  `md5` is the external `hashlib.md5` digest, taken as a parameter
(a pure function of the message bytes). -/
def getFileHash (md5 : List Nat → String) (content : List Nat) : String :=
  md5 ((chunksOf8192 content).foldl (fun acc chunk => acc ++ chunk) [])

/-- `get_file_hash` including the fallible file read (database.py lines
302-314): the file system is a map from paths to either the byte content or
an OS error; an OS error is caught and re-raised as a `FileSystemError`
carrying the path and the `read` operation, while a successful read returns
the digest. -/
def getFileHashIO (md5 : List Nat → String)
    (fs : String → Except OsError (List Nat)) (file_path : String) :
    Except FileSystemError String :=
  match fs file_path with
  | .ok content => .ok (getFileHash md5 content)
  | .error e =>
      .error
        { message := "Failed to read file for hashing: " ++ file_path
          file_path := some file_path
          operation := some "read"
          error_code := "FILESYSTEM_ERROR"
          original_error := some e }

/-! ## `SearchRequest` validation (models.py lines 131-144). -/

/-- An ASCII whitespace character, for `str_strip_whitespace`. -/
def isSpaceChar (c : Char) : Bool :=
  c == ' ' || c == '\t' || c == '\n' || c == '\r'

/-- Whitespace stripping applied by pydantic's `str_strip_whitespace = True`
to every string field before validation. -/
def pyStrip (s : String) : String :=
  String.mk (((s.data.dropWhile isSpaceChar).reverse.dropWhile isSpaceChar).reverse)

/-- A pydantic validation failure, carrying the offending field and the
violated constraint. -/
structure ValidationFailure where
  field_name : String
  constraint : String
deriving DecidableEq, Repr

/-- A validated search request. -/
structure SearchRequest where
  query : String
  trigger : String
  complexity : String
  category : String
  active_only : Bool
  page : Int
  per_page : Int
deriving DecidableEq, Repr

/-- Construction of a `SearchRequest` with pydantic validation: every string
field is whitespace-stripped (`str_strip_whitespace = True`), `query` must
satisfy `max_length=500`, `page` must satisfy `ge=1`, and `per_page` must
satisfy `ge=1` and `le=100`.  Validation happens at construction, before the
request can reach any storage operation. -/
def mkSearchRequest (query trigger complexity category : String)
    (active_only : Bool) (page per_page : Int) :
    Except ValidationFailure SearchRequest :=
  let q := pyStrip query
  if 500 < q.length then .error ⟨"query", "max_length=500"⟩
  else if page < 1 then .error ⟨"page", "ge=1"⟩
  else if per_page < 1 then .error ⟨"per_page", "ge=1"⟩
  else if 100 < per_page then .error ⟨"per_page", "le=100"⟩
  else .ok
    { query := q
      trigger := pyStrip trigger
      complexity := pyStrip complexity
      category := pyStrip category
      active_only := active_only
      page := page
      per_page := per_page }

/-! ## Index store: the `workflows` table, the `workflows_fts` shadow index
and the synchronizing update trigger (database.py lines 151-290). -/

/-- A row of the authoritative `workflows` table (database.py lines 156-180),
restricted to the columns the FTS synchronization involves plus the typed
metadata columns. -/
structure WorkflowRow where
  id : Nat
  filename : String
  name : String
  description : String
  integrations : String
  tags : String
  category : String
  active : Bool
  trigger_type : String
  complexity : String
  node_count : Int
  file_hash : String
deriving DecidableEq, Repr

/-- An entry of the `workflows_fts` shadow index (database.py lines 183-195):
the six indexed columns, keyed by the rowid it shares with the authoritative
table (`content_rowid=id`). -/
structure FtsEntry where
  rowid : Nat
  filename : String
  name : String
  description : String
  integrations : String
  tags : String
  category : String
deriving DecidableEq, Repr

/-- The shadow entry an authoritative row should have: same rowid, the six
indexed column values. -/
def ftsProject (r : WorkflowRow) : FtsEntry :=
  { rowid := r.id
    filename := r.filename
    name := r.name
    description := r.description
    integrations := r.integrations
    tags := r.tags
    category := r.category }

/-- The `'delete'` command issued by the triggers: remove the shadow entry
with the given rowid. -/
def ftsDelete (fts : List FtsEntry) (rid : Nat) : List FtsEntry :=
  fts.filter (fun e => e.rowid != rid)

/-- The plain insert issued by the triggers: add a shadow entry. -/
def ftsInsert (fts : List FtsEntry) (e : FtsEntry) : List FtsEntry :=
  fts ++ [e]

/-- The `workflows_fts_update` trigger (database.py lines 272-290): on update
of a row, first delete the shadow entry keyed by `old.id`, then insert a new
entry built from the `new.*` column values, keyed by `new.id`. -/
def ftsUpdateTrigger (fts : List FtsEntry) (oldId : Nat) (newRow : WorkflowRow) :
    List FtsEntry :=
  ftsInsert (ftsDelete fts oldId) (ftsProject newRow)

/-- A SQL `UPDATE` of the authoritative table replacing the row whose id is
`i` by `newRow` (an update never changes the `id` primary key, so
`newRow.id = i` in every use). -/
def updateRows (rows : List WorkflowRow) (i : Nat) (newRow : WorkflowRow) :
    List WorkflowRow :=
  rows.map (fun r => if r.id = i then newRow else r)

/-- The active-flag coercion exactly as claim C9 words it: the integers 0 and
1 map to the corresponding boolean, a string maps to whether it is recognized
as true (case-insensitively), and every other input value falls back to
false. -/
def claimActiveCoercion (v : PyValue) : Bool :=
  match v with
  | .int 0 => false
  | .int 1 => true
  | .str s => ["true", "1", "yes", "on"].contains s.toLower
  | _ => false

/-- The active-flag coercion as amended: integers map to their truthiness
(true exactly when nonzero), booleans map to themselves, a string maps to
true exactly when its lower-cased form is one of `true`, `1`, `yes`, `on`
and to false otherwise, and `None` maps to false. -/
def amendedActiveCoercion (v : PyValue) : Bool :=
  match v with
  | .int n => decide (n ≠ 0)
  | .bool b => b
  | .str s =>
      (s.toLower == "true") || (s.toLower == "1") ||
      (s.toLower == "yes") || (s.toLower == "on")
  | .none => false

/-! ## Theorems -/

/-- C1.  The complexity classifier `ComplexityLevel.from_node_count` returns
`low` iff `node_count ≤ 5`, `medium` iff `6 ≤ node_count ≤ 15`, and `high`
iff `node_count ≥ 16`, for every integer `node_count`. -/
theorem complexity_thresholds (n : Int) :
    (ComplexityLevel.fromNodeCount n = .low ↔ n ≤ 5) ∧
    (ComplexityLevel.fromNodeCount n = .medium ↔ 6 ≤ n ∧ n ≤ 15) ∧
    (ComplexityLevel.fromNodeCount n = .high ↔ 16 ≤ n) := by
  unfold ComplexityLevel.fromNodeCount
  split_ifs with h1 h2 <;>
    refine ⟨?_, ?_, ?_⟩ <;> constructor <;> intro h <;> first
      | omega
      | simp_all

/-- C2.  After `WorkflowMetadata.__post_init__`, the `complexity` field
equals the classifier applied to `node_count`, whatever complexity value was
supplied at construction: an inconsistent supplied value is silently
corrected, never kept. -/
theorem post_init_complexity_invariant (m : WorkflowMetadata) :
    (m.postInit).complexity = ComplexityLevel.fromNodeCount m.node_count := by
  simp only [WorkflowMetadata.postInit]
  split_ifs <;> simp_all

/-- C4 counterexample.  For the filename `123.json` the extension-stripped
name splits into the single pure-numeric segment `123`, yet the derived
workflow name is `123` itself: the leading numeric segment is kept, not
dropped, because the source only drops it when more than one segment
exists. -/
theorem numeric_prefix_kept_counterexample :
    pyIsDigit ((splitUnderscore (stripJsonAll ("123.json").data) []).headD [])
      = true ∧
    formatWorkflowName "123.json" = "123" := by decide

/-- C4 as amended.  When the extension-stripped, underscore-split name has
more than one segment and its first segment is purely numeric, the derived
workflow name is built from the remaining segments only: the leading numeric
segment is dropped as an internal ID prefix. -/
theorem numeric_prefix_dropped (filename : String)
    (h1 : 1 < (splitUnderscore (stripJsonAll filename.data) []).length)
    (h2 : pyIsDigit
      ((splitUnderscore (stripJsonAll filename.data) []).headD []) = true) :
    formatWorkflowName filename =
      String.mk (List.intercalate [' ']
        (((splitUnderscore (stripJsonAll filename.data) []).drop 1).map
          renderPart)) := by
  simp only [formatWorkflowName, strippedParts]
  rw [if_pos]
  rw [Bool.and_eq_true]
  exact ⟨decide_eq_true h1, h2⟩

/-- Witness for `numeric_prefix_dropped` at the filename `123_test.json`. -/
theorem numeric_prefix_dropped_witness :
    1 < (splitUnderscore (stripJsonAll ("123_test.json").data) []).length ∧
    formatWorkflowName "123_test.json" =
      String.mk (List.intercalate [' ']
        (((splitUnderscore (stripJsonAll ("123_test.json").data) []).drop 1).map
          renderPart)) :=
  ⟨by decide, numeric_prefix_dropped "123_test.json" (by decide) (by decide)⟩

/-- Every segment is rendered the same way by the source's dictionary lookup
and by the specification's per-segment rule. -/
theorem renderPart_eq_specRenderSegment (part : List Char) :
    renderPart part = specRenderSegment part := by
  simp only [renderPart, specRenderSegment]
  by_cases h1 : String.mk (pyLower part) = "http"
  · simp [h1, specialCases, List.lookup]
  by_cases h2 : String.mk (pyLower part) = "api"
  · simp [h1, h2, specialCases, List.lookup]
  by_cases h3 : String.mk (pyLower part) = "webhook"
  · simp [h1, h2, h3, specialCases, List.lookup]
  by_cases h4 : String.mk (pyLower part) = "automation"
  · simp [h1, h2, h3, h4, specialCases, List.lookup]
  by_cases h5 : String.mk (pyLower part) = "scheduled"
  · simp [h1, h2, h3, h4, h5, specialCases, List.lookup]
  by_cases h6 : String.mk (pyLower part) = "manual"
  · simp [h1, h2, h3, h4, h5, h6, specialCases, List.lookup]
  by_cases h7 : String.mk (pyLower part) = "ai"
  · simp [h1, h2, h3, h4, h5, h6, h7, specialCases, List.lookup]
  by_cases h8 : String.mk (pyLower part) = "ml"
  · simp [h1, h2, h3, h4, h5, h6, h7, h8, specialCases, List.lookup]
  by_cases h9 : String.mk (pyLower part) = "csv"
  · simp [h1, h2, h3, h4, h5, h6, h7, h8, h9, specialCases, List.lookup]
  by_cases h10 : String.mk (pyLower part) = "json"
  · simp [h1, h2, h3, h4, h5, h6, h7, h8, h9, h10, specialCases, List.lookup]
  by_cases h11 : String.mk (pyLower part) = "xml"
  · simp [h1, h2, h3, h4, h5, h6, h7, h8, h9, h10, h11, specialCases, List.lookup]
  by_cases h12 : String.mk (pyLower part) = "sql"
  · simp [h1, h2, h3, h4, h5, h6, h7, h8, h9, h10, h11, h12, specialCases, List.lookup]
  by_cases h13 : String.mk (pyLower part) = "ftp"
  · simp [h1, h2, h3, h4, h5, h6, h7, h8, h9, h10, h11, h12, h13, specialCases, List.lookup]
  by_cases h14 : String.mk (pyLower part) = "smtp"
  · simp [h1, h2, h3, h4, h5, h6, h7, h8, h9, h10, h11, h12, h13, h14, specialCases, List.lookup]
  by_cases h15 : String.mk (pyLower part) = "oauth"
  · simp [h1, h2, h3, h4, h5, h6, h7, h8, h9, h10, h11, h12, h13, h14, h15, specialCases, List.lookup]
  by_cases h16 : String.mk (pyLower part) = "jwt"
  · simp [h1, h2, h3, h4, h5, h6, h7, h8, h9, h10, h11, h12, h13, h14, h15, h16, specialCases, List.lookup]
  by_cases h17 : String.mk (pyLower part) = "crud"
  · simp [h1, h2, h3, h4, h5, h6, h7, h8, h9, h10, h11, h12, h13, h14, h15, h16, h17, specialCases, List.lookup]
  simp [h1, h2, h3, h4, h5, h6, h7, h8, h9, h10, h11, h12, h13, h14, h15, h16, h17, specialCases, List.lookup, beq_eq_decide]

/-- C5.  The derived workflow name renders every segment whose lower-cased
form is a key of the fixed acronym/technology dictionary in that entry's
fixed capitalization, regardless of the segment's position, and title-cases
every other segment: the source pipeline agrees with the specification's
per-segment rendering rule on all segments of every filename. -/
theorem format_name_dictionary_rendering (filename : String) :
    formatWorkflowName filename =
      String.mk (List.intercalate [' ']
        ((strippedParts filename).map specRenderSegment)) := by
  unfold formatWorkflowName
  rw [List.map_congr_left fun p _ => renderPart_eq_specRenderSegment p]

/-- C9 counterexample.  The coercion maps the integer 5 to `true`, while the
claim's rule (0/1 integers and recognized-true strings; everything else falls
back to false) maps it to `false`. -/
theorem convert_active_counterexample :
    convertActive (PyValue.int 5) = true ∧
    claimActiveCoercion (PyValue.int 5) = false := by decide

/-- C9 as amended.  The coercion is a total parsing function: integers map
to their truthiness (true exactly when nonzero), booleans to themselves,
strings recognized as true (case-insensitively: `true`, `1`, `yes`, `on`)
to true and all other strings to false, and `None` to false. -/
theorem convert_active_total (v : PyValue) :
    convertActive v = amendedActiveCoercion v := by
  cases v with
  | int n =>
      rw [Bool.eq_iff_iff]
      simp [convertActive, amendedActiveCoercion, bne_iff_ne]
  | bool b => rfl
  | str s =>
      rw [Bool.eq_iff_iff]
      simp [convertActive, amendedActiveCoercion, List.contains, or_assoc]
  | none => rfl

/-- C10.  Name derivation removes every occurrence of `.json`, not only a
trailing extension: for `my.json_backup.json` the derived name is
`My Backup`, while stripping only the trailing extension would give
`My.json Backup`. -/
theorem json_stripped_everywhere :
    formatWorkflowName "my.json_backup.json" = "My Backup" ∧
    formatWorkflowNameTrailingOnly "my.json_backup.json" = "My.json Backup" ∧
    formatWorkflowName "my.json_backup.json" ≠
      formatWorkflowNameTrailingOnly "my.json_backup.json" := by decide

/-- Splitting into 8192-byte chunks and accumulating them through the
incremental updates reconstructs exactly the original byte content. -/
theorem chunksOf8192_foldl_append (l acc : List Nat) :
    (chunksOf8192 l).foldl (fun a chunk => a ++ chunk) acc = acc ++ l := by
  induction l using chunksOf8192.induct generalizing acc with
  | case1 => simp [chunksOf8192]
  | case2 b rest ih =>
      rw [chunksOf8192]
      simp only [List.foldl_cons]
      rw [ih]
      rw [List.append_assoc, List.take_append_drop]

/-- The chunked incremental digest computation feeds the digest function
exactly the file's byte content. -/
theorem getFileHash_eq_digest (md5 : List Nat → String) (content : List Nat) :
    getFileHash md5 content = md5 content := by
  unfold getFileHash
  rw [chunksOf8192_foldl_append]
  rfl

/-- C6.  The fingerprint computation is deterministic: two computations of
the digest over identical byte contents yield identical digests, and each
equals the digest function applied to the content itself (the chunked
incremental reading introduces no dependence on anything but the bytes). -/
theorem fingerprint_deterministic (md5 : List Nat → String)
    (c1 c2 : List Nat) (h : c1 = c2) :
    getFileHash md5 c1 = getFileHash md5 c2 ∧ getFileHash md5 c1 = md5 c1 :=
  ⟨by rw [h], getFileHash_eq_digest md5 c1⟩

/-- Witness for `fingerprint_deterministic` on a concrete content and a
concrete digest function. -/
theorem fingerprint_deterministic_witness :
    getFileHash (fun l => toString l.length) [7, 7, 7] =
      getFileHash (fun l => toString l.length) [7, 7, 7] :=
  (fingerprint_deterministic (fun l => toString l.length) [7, 7, 7] [7, 7, 7]
    rfl).1

/-- C7.  The fingerprint computation over a file path returns a structured
`FileSystemError` carrying the path and the `read` operation exactly when
reading the file fails with an OS-level I/O error; the raw OS error never
escapes (it is wrapped as `original_error`), and on a successful read the
digest is returned without error. -/
theorem file_hash_error_handling (md5 : List Nat → String)
    (fs : String → Except OsError (List Nat)) (p : String) :
    ((∃ err : FileSystemError, getFileHashIO md5 fs p = .error err ∧
        err.file_path = some p ∧ err.operation = some "read" ∧
        err.error_code = "FILESYSTEM_ERROR") ↔
      (∃ e : OsError, fs p = .error e)) ∧
    (∀ content, fs p = .ok content →
      getFileHashIO md5 fs p = .ok (getFileHash md5 content)) := by
  constructor
  · constructor
    · intro ⟨err, herr, _⟩
      unfold getFileHashIO at herr
      cases hfs : fs p with
      | ok content => rw [hfs] at herr; cases herr
      | error e => exact ⟨e, rfl⟩
    · intro ⟨e, he⟩
      unfold getFileHashIO
      rw [he]
      exact ⟨_, rfl, rfl, rfl, rfl⟩
  · intro content hok
    unfold getFileHashIO
    rw [hok]

/-- Concrete digest function for the C7 witness. -/
def md5W : List Nat → String := fun l => toString l.length

/-- Concrete file system for the C7 witness: one readable file, everything
else fails with an OS error. -/
def fsW : String → Except OsError (List Nat) := fun p =>
  if p = "workflows/ok.json" then .ok [123, 10] else .error ⟨"No such file"⟩

/-- Witness for `file_hash_error_handling`: on the failing path a structured
`FileSystemError` carrying the path comes back, and on the readable path the
digest comes back. -/
theorem file_hash_error_handling_witness :
    (∃ err : FileSystemError, getFileHashIO md5W fsW "missing.json" = .error err ∧
      err.file_path = some "missing.json" ∧ err.operation = some "read" ∧
      err.error_code = "FILESYSTEM_ERROR") ∧
    getFileHashIO md5W fsW "workflows/ok.json" = .ok (getFileHash md5W [123, 10]) :=
  ⟨(file_hash_error_handling md5W fsW "missing.json").1.mpr
      ⟨⟨"No such file"⟩, rfl⟩,
    (file_hash_error_handling md5W fsW "workflows/ok.json").2 [123, 10] rfl⟩

/-- C8.  `SearchRequest` construction succeeds only with `page ≥ 1` and
`per_page ∈ [1, 100]`: every accepted request satisfies the bounds, and any
input with `page < 1` or `per_page` outside `[1, 100]` is rejected with a
validation failure at construction. -/
theorem search_request_validation (query trigger complexity category : String)
    (active_only : Bool) (page per_page : Int) :
    (∀ r, mkSearchRequest query trigger complexity category active_only
        page per_page = .ok r →
      1 ≤ r.page ∧ 1 ≤ r.per_page ∧ r.per_page ≤ 100) ∧
    (page < 1 ∨ per_page < 1 ∨ 100 < per_page →
      ∃ e, mkSearchRequest query trigger complexity category active_only
        page per_page = .error e) := by
  simp only [mkSearchRequest]
  split_ifs with h1 h2 h3 h4 <;> constructor <;>
    first
      | (intro r hr; cases hr; refine ⟨?_, ?_, ?_⟩ <;> dsimp only <;> omega)
      | (intro r hr; cases hr)
      | (intro hbad; exact ⟨_, rfl⟩)
      | (intro hbad; omega)

/-- Witness for `search_request_validation`: the default-shaped request with
`page = 0` is rejected, and the accepted request with `page = 1`,
`per_page = 20` satisfies the bounds. -/
theorem search_request_validation_witness :
    (∃ e, mkSearchRequest "" "all" "all" "all" false 0 20 = .error e) ∧
    (1 ≤ (⟨"", "all", "all", "all", false, 1, 20⟩ : SearchRequest).page ∧
      1 ≤ (⟨"", "all", "all", "all", false, 1, 20⟩ : SearchRequest).per_page ∧
      (⟨"", "all", "all", "all", false, 1, 20⟩ : SearchRequest).per_page ≤ 100) :=
  ⟨(search_request_validation "" "all" "all" "all" false 0 20).2
      (Or.inl (by decide)),
    (search_request_validation "" "all" "all" "all" false 1 20).1
      ⟨"", "all", "all", "all", false, 1, 20⟩ rfl⟩

/-! ## The FTS synchronization protocol (claim C3). -/

/-- Unfolding `updateRows` over a cons cell. -/
theorem updateRows_cons (r : WorkflowRow) (t : List WorkflowRow) (i : Nat)
    (newRow : WorkflowRow) :
    updateRows (r :: t) i newRow =
      (if r.id = i then newRow else r) :: updateRows t i newRow := rfl

/-- A table containing no row with id `i` is unchanged by an update at `i`. -/
theorem updateRows_of_countP_zero (t : List WorkflowRow) (i : Nat)
    (newRow : WorkflowRow) (h : t.countP (fun r => r.id == i) = 0) :
    updateRows t i newRow = t := by
  induction t with
  | nil => rfl
  | cons r t ih =>
      rw [List.countP_cons] at h
      cases hri : (r.id == i) with
      | false =>
          rw [hri] at h
          simp only [if_neg Bool.false_ne_true, Nat.add_zero] at h
          have hne : r.id ≠ i := by simpa using hri
          rw [updateRows_cons, if_neg hne, ih h]
      | true => rw [hri] at h; simp at h

/-- Deleting rowid `i` from a table containing no row with id `i` keeps every
row. -/
theorem filter_ne_of_countP_zero (t : List WorkflowRow) (i : Nat)
    (h : t.countP (fun r => r.id == i) = 0) :
    t.filter (fun r => r.id != i) = t := by
  apply List.filter_eq_self.mpr
  intro a ha
  have := List.countP_eq_zero.mp h a ha
  simpa [bne] using this

/-- A rowid filter over projected shadow entries is the projection of the
corresponding id filter over the authoritative rows. -/
theorem filter_map_ftsProject (l : List WorkflowRow) (p : Nat → Bool) :
    (l.map ftsProject).filter (fun e => p e.rowid) =
      (l.filter (fun r => p r.id)).map ftsProject := by
  induction l with
  | nil => rfl
  | cons r t ih =>
      simp only [List.map_cons, List.filter_cons]
      cases hp : p r.id <;> simp [ftsProject, hp, ih]

/-- Updating the unique row with id `i` makes the projected table a
permutation of the old projection without rowid `i` plus the projection of
the new row. -/
theorem updateRows_map_perm (rows : List WorkflowRow) (i : Nat)
    (newRow : WorkflowRow)
    (hone : rows.countP (fun r => r.id == i) = 1) :
    ((updateRows rows i newRow).map ftsProject).Perm
      (((rows.filter (fun r => r.id != i)).map ftsProject) ++
        [ftsProject newRow]) := by
  induction rows with
  | nil => simp at hone
  | cons r t ih =>
      rw [List.countP_cons] at hone
      cases hri : (r.id == i) with
      | true =>
          have hreq : r.id = i := by simpa using hri
          have ht0 : t.countP (fun r => r.id == i) = 0 := by
            rw [hri] at hone; simpa using hone
          rw [updateRows_cons, if_pos hreq,
            updateRows_of_countP_zero t i newRow ht0]
          rw [List.filter_cons]
          have hf : (r.id != i) = false := by simp [hreq]
          rw [hf]
          simp only [Bool.false_eq_true, if_neg]
          rw [filter_ne_of_countP_zero t i ht0]
          simp only [List.map_cons]
          exact (List.perm_append_singleton _ _).symm
      | false =>
          have hrne : r.id ≠ i := by simpa using hri
          have ht1 : t.countP (fun r => r.id == i) = 1 := by
            rw [hri] at hone; simpa using hone
          rw [updateRows_cons, if_neg hrne, List.filter_cons]
          have hf : (r.id != i) = true := by simp [bne, hrne]
          rw [hf]
          simp only [if_pos]
          simp only [List.map_cons, List.cons_append]
          exact (ih ht1).cons (ftsProject r)

/-- C3.  The two-phase (delete-then-insert) update trigger keeps the shadow
index synchronized: starting from a shadow index whose entries are exactly
the projections of the authoritative rows, updating the unique row with id
`i` (the primary key is unchanged, `newRow.id = i`) leaves the shadow index
holding exactly one entry per authoritative row with the updated values —
its entries are a permutation of the projections of the updated table, and
the entry at rowid `i` is exactly the projection of the new row. -/
theorem fts_update_two_phase (rows : List WorkflowRow) (fts : List FtsEntry)
    (i : Nat) (newRow : WorkflowRow)
    (hsync : fts.Perm (rows.map ftsProject))
    (hone : rows.countP (fun r => r.id == i) = 1)
    (hid : newRow.id = i) :
    (ftsUpdateTrigger fts i newRow).Perm
        ((updateRows rows i newRow).map ftsProject) ∧
    (ftsUpdateTrigger fts i newRow).filter (fun e => e.rowid == i) =
        [ftsProject newRow] := by
  constructor
  · unfold ftsUpdateTrigger ftsInsert ftsDelete
    have hdel := hsync.filter (fun e => e.rowid != i)
    have hperm1 := hdel.append_right [ftsProject newRow]
    refine hperm1.trans ?_
    rw [filter_map_ftsProject rows (fun rid => rid != i)]
    exact (updateRows_map_perm rows i newRow hone).symm
  · unfold ftsUpdateTrigger ftsInsert ftsDelete
    rw [List.filter_append]
    have h1 : (fts.filter (fun e => e.rowid != i)).filter
        (fun e => e.rowid == i) = [] := by
      rw [List.filter_eq_nil_iff]
      intro a ha
      have := (List.mem_filter.mp ha).2
      simp [bne] at this
      simp [this]
    rw [h1]
    simp [ftsProject, hid]

/-- Concrete authoritative table for the C3 witness. -/
def rowsW : List WorkflowRow :=
  [{ id := 1, filename := "0001_alpha.json", name := "Alpha",
     description := "first", integrations := "Slack", tags := "",
     category := "messaging", active := true, trigger_type := "Webhook",
     complexity := "low", node_count := 3, file_hash := "aaa" },
   { id := 2, filename := "0002_beta.json", name := "Beta",
     description := "second", integrations := "", tags := "",
     category := "", active := false, trigger_type := "Manual",
     complexity := "medium", node_count := 10, file_hash := "bbb" }]

/-- Updated row for the C3 witness: same id and filename, changed fields. -/
def newRowW : WorkflowRow :=
  { id := 1, filename := "0001_alpha.json", name := "Alpha v2",
    description := "first updated", integrations := "Slack Jira",
    tags := "sync", category := "messaging", active := true,
    trigger_type := "Webhook", complexity := "low", node_count := 4,
    file_hash := "ccc" }

/-- Witness for `fts_update_two_phase` on the concrete two-row table, with a
shadow index that is exactly the projection of the table. -/
theorem fts_update_two_phase_witness :
    rowsW.countP (fun r => r.id == 1) = 1 ∧
    (ftsUpdateTrigger (rowsW.map ftsProject) 1 newRowW).Perm
      ((updateRows rowsW 1 newRowW).map ftsProject) :=
  ⟨by decide,
    (fts_update_two_phase rowsW (rowsW.map ftsProject) 1 newRowW
      (List.Perm.refl _) (by decide) rfl).1⟩
